import Mathlib

/-!
Verification of the PM scheduling engine of the SQLite CMMS repository
(`pm_scheduler.py`).

The scheduler is embedded shallowly:

* Python `datetime` values are modelled as integer seconds since an epoch;
  dates parsed by `strptime` (always midnight) are calendar triples
  (`PyDate`) converted to seconds via the proleptic Gregorian civil-from-date
  algorithm.  `timedelta.days` is floored division by 86400 (`td_days`),
  matching Python's floor semantics for negative spans.
* The repository caches (`_completion_cache`, `_scheduled_cache`,
  `_uncompleted_cache`, `_next_annual_cache`) are modelled as lookup
  functions in `RepoCaches`, i.e. the state after the bulk loads that
  `generate_weekly_schedule` performs before any eligibility check.
  `get_scheduled_pms` keeps the source's truthiness guard on `bfm_no`
  (an empty equipment id bypasses the cache and queries the
  `weekly_pm_schedules` table directly), so the table is carried alongside.
* `bulk_load_uncompleted_schedules` reproduces the SQL filter
  (`week_start_date < before_week AND status = 'Scheduled'`), the
  descending order on `week_start_date` and the per-key cap of 5 rows.
* Python's stable `list.sort(key=...)` is modelled by `List.insertionSort`
  (a stable sort) on the same composite key.
-/

namespace PMSched

/-- `PMType` enum of `pm_scheduler.py`. -/
inductive PMType where
  | WEEKLY
  | MONTHLY
  | SIX_MONTH
  | ANNUAL
deriving DecidableEq

/-- The `.value` string of each `PMType` member. -/
def PMType.value : PMType → String
  | .WEEKLY => "Weekly"
  | .MONTHLY => "Monthly"
  | .SIX_MONTH => "Six Month"
  | .ANNUAL => "Annual"

/-- `PMStatus` enum. -/
inductive PMStatus where
  | DUE
  | NOT_DUE
  | RECENTLY_COMPLETED
  | CONFLICTED
deriving DecidableEq

/-- A calendar date as produced by `datetime.strptime` (time 00:00). -/
structure PyDate where
  y : Nat
  m : Nat
  d : Nat
deriving DecidableEq

/-- Gregorian leap-year test. -/
def is_leap (y : Nat) : Bool := y % 4 == 0 && (y % 100 != 0 || y % 400 == 0)

/-- Length of a month in the proleptic Gregorian calendar. -/
def days_in_month (y m : Nat) : Nat :=
  if m = 2 then (if is_leap y then 29 else 28)
  else if m = 4 ∨ m = 6 ∨ m = 9 ∨ m = 11 then 30
  else 31

/-- Days since 1970-01-01 (civil-from-date, proleptic Gregorian). -/
def date_to_days (dt : PyDate) : Int :=
  let y : Int := if dt.m ≤ 2 then (dt.y : Int) - 1 else (dt.y : Int)
  let era : Int := Int.fdiv y 400
  let yoe : Int := y - era * 400
  let mp : Int := if dt.m > 2 then (dt.m : Int) - 3 else (dt.m : Int) + 9
  let doy : Int := (153 * mp + 2) / 5 + (dt.d : Int) - 1
  let doe : Int := yoe * 365 + yoe / 4 - yoe / 100 + doy
  era * 146097 + doe - 719468

/-- The `datetime` value of a parsed date, in seconds since the epoch. -/
def date_secs (dt : PyDate) : Int := 86400 * date_to_days dt

/-- `(A - B).days` for two `datetime`s given in seconds: Python `timedelta`
normalisation floors toward negative infinity. -/
def td_days (a b : Int) : Int := Int.fdiv (a - b) 86400

/-- Python `<` on `datetime` objects (valid dates): lexicographic on
(year, month, day). -/
def pyDateLt (a b : PyDate) : Prop :=
  a.y < b.y ∨ (a.y = b.y ∧ (a.m < b.m ∨ (a.m = b.m ∧ a.d < b.d)))

instance (a b : PyDate) : Decidable (pyDateLt a b) := by
  unfold pyDateLt; exact inferInstance

/-- Zero-padded two-digit rendering (`%m`, `%d` of `strftime`). -/
def pad2 (n : Nat) : String := if n < 10 then "0" ++ toString n else toString n

/-- Zero-padded four-digit rendering (`%Y` of `strftime`). -/
def pad4 (n : Nat) : String :=
  if n < 10 then "000" ++ toString n
  else if n < 100 then "00" ++ toString n
  else if n < 1000 then "0" ++ toString n
  else toString n

/-- `strftime('%Y-%m-%d')`. -/
def fmt_date (dt : PyDate) : String :=
  pad4 dt.y ++ "-" ++ pad2 dt.m ++ "-" ++ pad2 dt.d

/-- Split a character list at every occurrence of `c` (like `str.split(c)`). -/
def split_on_char (c : Char) : List Char → List (List Char)
  | [] => [[]]
  | x :: xs =>
    match split_on_char c xs with
    | [] => if x = c then [[], []] else [[x]]
    | y :: ys => if x = c then [] :: y :: ys else (x :: y) :: ys

/-- Numeric value of a digit string. -/
def digits_to_nat (l : List Char) : Nat :=
  l.foldl (fun acc c => acc * 10 + (c.toNat - 48)) 0

/-- `strptime` `%Y` field: exactly four digits. -/
def parse_year (l : List Char) : Option Nat :=
  if l.length = 4 ∧ l.all Char.isDigit then some (digits_to_nat l) else none

/-- `strptime` `%m` / `%d` field: one or two digits, value in `[1, hi]`. -/
def parse_field (hi : Nat) (l : List Char) : Option Nat :=
  if 1 ≤ l.length ∧ l.length ≤ 2 ∧ l.all Char.isDigit then
    let v := digits_to_nat l
    if 1 ≤ v ∧ v ≤ hi then some v else none
  else none

/-- `datetime` construction: `MINYEAR ≤ y ≤ MAXYEAR` and a valid calendar
day; `strptime` raises `ValueError` otherwise (caught by the parser). -/
def mk_valid_date (y m d : Nat) : Option PyDate :=
  if 1 ≤ y ∧ y ≤ 9999 ∧ 1 ≤ m ∧ m ≤ 12 ∧ 1 ≤ d ∧ d ≤ days_in_month y m then
    some ⟨y, m, d⟩
  else none

/-- Component order of a three-field date format. -/
inductive Ord3 where
  | ymd
  | mdy
  | dmy
deriving DecidableEq

/-- One `datetime.strptime(s, fmt)` attempt for a three-field format with a
single-character separator (the five formats used by `parse_flexible`). -/
def strptime_fmt (sep : Char) (o : Ord3) (s : String) : Option PyDate :=
  match split_on_char sep s.data with
  | [a, b, c] =>
    let parts : List Char × List Char × List Char :=
      match o with
      | .ymd => (a, b, c)
      | .mdy => (c, a, b)
      | .dmy => (c, b, a)
    match parse_year parts.1, parse_field 12 parts.2.1, parse_field 31 parts.2.2 with
    | some yv, some mv, some dv => mk_valid_date yv mv dv
    | _, _, _ => none
  | _ => none

/-- `DateParser.parse_flexible`: `None`/empty input gives `None`; otherwise
the formats `%Y-%m-%d`, `%m/%d/%Y`, `%d/%m/%Y`, `%Y/%m/%d`, `%m-%d-%Y` are
tried in that order and the first success is returned, else `None`. -/
def parse_flexible (date_string : Option String) : Option PyDate :=
  match date_string with
  | none => none
  | some s =>
    if s = "" then none
    else
      match strptime_fmt '-' .ymd s with
      | some d => some d
      | none =>
        match strptime_fmt '/' .mdy s with
        | some d => some d
        | none =>
          match strptime_fmt '/' .dmy s with
          | some d => some d
          | none =>
            match strptime_fmt '/' .ymd s with
            | some d => some d
            | none => strptime_fmt '-' .mdy s

example : date_to_days ⟨1970, 1, 1⟩ = 0 := by decide
example : date_to_days ⟨1970, 1, 2⟩ = 1 := by decide
example : date_to_days ⟨1969, 12, 31⟩ = -1 := by decide
example : date_to_days ⟨2000, 3, 1⟩ = 11017 := by decide
example : date_to_days ⟨2025, 2, 10⟩ - date_to_days ⟨2025, 1, 1⟩ = 40 := by decide
example : parse_flexible (some "2024-02-29") = some ⟨2024, 2, 29⟩ := by decide
example : parse_flexible (some "2023-02-29") = none := by decide
example : parse_flexible (some "03/04/2024") = some ⟨2024, 3, 4⟩ := by decide
example : parse_flexible (some "13/04/2024") = some ⟨2024, 4, 13⟩ := by decide
example : parse_flexible (some "2024/3/4") = some ⟨2024, 3, 4⟩ := by decide
example : parse_flexible (some "03-04-2024") = some ⟨2024, 3, 4⟩ := by decide
example : parse_flexible (some "2024-1-2") = some ⟨2024, 1, 2⟩ := by decide
example : parse_flexible (some "nonsense") = none := by decide
example : parse_flexible (some "") = none := by decide
example : parse_flexible none = none := by decide
example : td_days 86401 0 = 1 := by decide
example : td_days 0 86401 = -2 := by decide

/-- `Equipment` dataclass. -/
structure Equipment where
  bfm_no : String
  description : String
  has_weekly : Bool
  has_monthly : Bool
  has_six_month : Bool
  has_annual : Bool
  last_weekly_date : Option String
  last_monthly_date : Option String
  last_six_month_date : Option String
  last_annual_date : Option String
  status : String
  priority : Int := 99
deriving DecidableEq

/-- `CompletionRecord` dataclass (completion dates come from
`strptime('%Y-%m-%d')`, hence calendar dates at midnight). -/
structure CompletionRecord where
  bfm_no : String
  pm_type : PMType
  completion_date : PyDate
  technician : String
deriving DecidableEq

/-- A row of the `_scheduled_cache` (from `weekly_pm_schedules`): the
`pm_type` is kept as the raw database string. -/
structure ScheduledPMRow where
  bfm_no : String
  pm_type : String
  technician : String
  status : String
deriving DecidableEq

/-- A row of the `weekly_pm_schedules` table, as read by
`bulk_load_uncompleted_schedules` and the `get_scheduled_pms` fallback
query.  `week_start_date` is a day number (the column stores ISO date
strings whose ordering is chronological). -/
structure SchedRow where
  bfm_equipment_no : String
  pm_type : String
  week_start_date : Int
  assigned_technician : String
  status : String
deriving DecidableEq

/-- An entry of the `_uncompleted_cache` (only the fields the checker
reads). -/
structure UncompSched where
  week_start : Int
  technician : String
deriving DecidableEq

/-- `PMEligibilityResult` NamedTuple. -/
structure PMEligibilityResult where
  status : PMStatus
  reason : String
  priority_score : Int := 0
  days_overdue : Int := 0
deriving DecidableEq

/-- `PMAssignment` dataclass. -/
structure PMAssignment where
  bfm_no : String
  pm_type : PMType
  description : String
  priority_score : Int
  reason : String
  has_custom_template : Bool := false
deriving DecidableEq

/-- The repository state after the bulk loads of
`generate_weekly_schedule`: every cache is populated.  `schedules_db` is
the `weekly_pm_schedules` table itself, consulted only by the
`get_scheduled_pms` fallback when the equipment id is falsy. -/
structure RepoCaches where
  completion_cache : String → List CompletionRecord
  scheduled_cache : String → List ScheduledPMRow
  uncompleted_cache : String → List UncompSched
  next_annual_cache : String → Option String
  schedules_db : List SchedRow

/-- `get_recent_completions` with `_completion_cache` populated. -/
def get_recent_completions (repo : RepoCaches) (bfm_no : String) :
    List CompletionRecord :=
  repo.completion_cache bfm_no

/-- `get_scheduled_pms` with `_scheduled_cache` populated: the cache is
used only when `bfm_no` is truthy; an empty id falls back to the
per-week database query. -/
def get_scheduled_pms (repo : RepoCaches) (week_start : Int)
    (bfm_no : String) : List ScheduledPMRow :=
  if bfm_no ≠ "" then repo.scheduled_cache bfm_no
  else
    (repo.schedules_db.filter (fun r => r.week_start_date = week_start)).map
      (fun r => ⟨r.bfm_equipment_no, r.pm_type, r.assigned_technician, r.status⟩)

/-- Cache key `f"{bfm_no}_{pm_type}"`. -/
def uncomp_key (bfm_no pm_type : String) : String := bfm_no ++ "_" ++ pm_type

/-- `get_uncompleted_schedules` with `_uncompleted_cache` populated: the
`before_week` argument is ignored on the cached path. -/
def get_uncompleted_schedules (repo : RepoCaches) (bfm_no : String)
    (pm_type : PMType) (_before_week : Int) : List UncompSched :=
  repo.uncompleted_cache (uncomp_key bfm_no pm_type.value)

/-- Descending order on `week_start_date` (the SQL `ORDER BY ... DESC`). -/
def week_desc (r1 r2 : SchedRow) : Prop := r2.week_start_date ≤ r1.week_start_date

instance (r1 r2 : SchedRow) : Decidable (week_desc r1 r2) := by
  unfold week_desc; exact inferInstance

/-- `bulk_load_uncompleted_schedules(before_week)`: per cache key, the up
to 5 most recent `weekly_pm_schedules` rows with
`week_start_date < before_week` and `status = 'Scheduled'`, newest
first. -/
def bulk_load_uncompleted_schedules (db : List SchedRow) (before_week : Int) :
    String → List UncompSched := fun key =>
  ((List.insertionSort week_desc
      (db.filter (fun r =>
        r.week_start_date < before_week ∧ r.status = "Scheduled" ∧
          uncomp_key r.bfm_equipment_no r.pm_type = key))).take 5).map
    (fun r => ⟨r.week_start_date, r.assigned_technician⟩)

/-- The cadence flag of `equipment` for a PM type. -/
def cadence_flag (e : Equipment) : PMType → Bool
  | .WEEKLY => e.has_weekly
  | .MONTHLY => e.has_monthly
  | .SIX_MONTH => e.has_six_month
  | .ANNUAL => e.has_annual

/-- Gate 1 of `check_eligibility`: equipment must support the PM type. -/
def capability_gate (e : Equipment) (p : PMType) : Option PMEligibilityResult :=
  if cadence_flag e p then none
  else some ⟨.NOT_DUE, "Equipment doesn\x27t require " ++ p.value ++ " PM", 0, 0⟩

/-- Reason string of the stale-schedule gate. -/
def stale_reason (week_start : Int) (technician : String) : String :=
  "Already scheduled for week " ++ toString week_start ++
    " (uncompleted) - assigned to " ++ technician

/-- Gate 2: uncompleted schedules from previous weeks block assignment;
the message cites the oldest retained entry (`uncompleted_schedules[-1]`). -/
def stale_gate (repo : RepoCaches) (e : Equipment) (p : PMType)
    (week_start : Int) : Option PMEligibilityResult :=
  match (get_uncompleted_schedules repo e.bfm_no p week_start).getLast? with
  | none => none
  | some oldest =>
    some ⟨.CONFLICTED, stale_reason oldest.week_start oldest.technician, 0, 0⟩

/-- Gate 3 (`ANNUAL` only): explicit `next_annual_pm` date, when present,
parseable and not more than 30 days past, decides the outcome. -/
def annual_override_gate (repo : RepoCaches) (now : Int) (e : Equipment)
    (p : PMType) : Option PMEligibilityResult :=
  if p = PMType.ANNUAL then
    match repo.next_annual_cache e.bfm_no with
    | none => none
    | some next_annual_str =>
      if next_annual_str = "" then none
      else
        match parse_flexible (some next_annual_str) with
        | none => none
        | some next_annual_date =>
          let days_until := td_days (date_secs next_annual_date) now
          if days_until > 7 then
            some ⟨.NOT_DUE,
              "Annual PM scheduled for " ++ fmt_date next_annual_date ++
                " (" ++ toString days_until ++ " days from now)", 0, 0⟩
          else if days_until ≥ -30 then
            some ⟨.DUE,
              "Annual PM due by Next Annual PM Date: " ++
                fmt_date next_annual_date,
              500 + |min days_until 0| * 10, |min days_until 0|⟩
          else none
  else none

/-- Python `max(completions, key=completion_date)`: first maximum wins. -/
def find_latest : List CompletionRecord → Option CompletionRecord
  | [] => none
  | c :: cs =>
    some (cs.foldl
      (fun best x =>
        if pyDateLt best.completion_date x.completion_date then x else best) c)

/-- `_get_minimum_interval`. -/
def get_minimum_interval : PMType → Int
  | .WEEKLY => 7
  | .MONTHLY => 30
  | .SIX_MONTH => 180
  | .ANNUAL => 365

/-- Gate 4: a same-type completion within the minimum interval. -/
def recently_completed_gate (recent_completions : List CompletionRecord)
    (now : Int) (p : PMType) : Option PMEligibilityResult :=
  match find_latest (recent_completions.filter (fun c => c.pm_type = p)) with
  | none => none
  | some latest =>
    let days_since := td_days now (date_secs latest.completion_date)
    let min_interval := get_minimum_interval p
    if days_since < min_interval then
      some ⟨.RECENTLY_COMPLETED,
        p.value ++ " PM completed " ++ toString days_since ++
          " days ago (min interval: " ++ toString min_interval ++ ")", 0, 0⟩
    else none

/-- One blocking test of `_check_cross_pm_conflicts`: latest completion of
`q` within `limit` days. -/
def cross_block (recent_completions : List CompletionRecord) (now : Int)
    (q : PMType) (limit : Int) (msg : String) : Option PMEligibilityResult :=
  match find_latest (recent_completions.filter (fun c => c.pm_type = q)) with
  | none => none
  | some latest =>
    let days_since := td_days now (date_secs latest.completion_date)
    if days_since < limit then
      some ⟨.CONFLICTED, msg ++ toString days_since ++ " days ago", 0, 0⟩
    else none

/-- `_check_cross_pm_conflicts`. -/
def check_cross_pm_conflicts (recent_completions : List CompletionRecord)
    (now : Int) (p : PMType) : PMEligibilityResult :=
  let fallback : PMEligibilityResult := ⟨.DUE, "No cross-PM conflicts", 0, 0⟩
  match p with
  | .ANNUAL =>
    ((cross_block recent_completions now .WEEKLY 7
        "Annual blocked - Weekly PM completed ").orElse
      (fun _ => cross_block recent_completions now .MONTHLY 7
        "Annual blocked - Monthly PM completed ")).getD fallback
  | .MONTHLY =>
    ((cross_block recent_completions now .WEEKLY 7
        "Monthly blocked - Weekly PM completed ").orElse
      (fun _ => cross_block recent_completions now .ANNUAL 30
        "Monthly blocked - Annual PM completed ")).getD fallback
  | .WEEKLY =>
    ((cross_block recent_completions now .MONTHLY 7
        "Weekly blocked - Monthly PM completed ").orElse
      (fun _ => cross_block recent_completions now .ANNUAL 7
        "Weekly blocked - Annual PM completed ")).getD fallback
  | .SIX_MONTH => fallback

/-- Gate 6: an entry of the same PM type already scheduled this week. -/
def already_scheduled_gate (repo : RepoCaches) (e : Equipment) (p : PMType)
    (week_start : Int) : Option PMEligibilityResult :=
  if (get_scheduled_pms repo week_start e.bfm_no).any
      (fun s => s.pm_type = p.value) then
    some ⟨.CONFLICTED, "Already scheduled for this week", 0, 0⟩
  else none

/-- The equipment-table last-date column used by `_check_due_date` when no
completion record exists. -/
def last_date_field (e : Equipment) : PMType → Option String
  | .WEEKLY => e.last_weekly_date
  | .MONTHLY => e.last_monthly_date
  | .SIX_MONTH => e.last_six_month_date
  | .ANNUAL => e.last_annual_date

/-- Never-completed priority band of `_check_due_date`. -/
def never_priority : PMType → Int
  | .WEEKLY => 1100
  | .MONTHLY => 1000
  | .SIX_MONTH => 950
  | .ANNUAL => 900

/-- `(min_days, max_days, ideal_frequency)` per cadence. -/
def due_params : PMType → Int × Int × Int
  | .WEEKLY => (7, 10, 7)
  | .MONTHLY => (30, 35, 30)
  | .SIX_MONTH => (180, 190, 180)
  | .ANNUAL => (365, 370, 365)

/-- `_check_due_date`. -/
def check_due_date (e : Equipment) (p : PMType)
    (recent_completions : List CompletionRecord) (now : Int) :
    PMEligibilityResult :=
  let pair : Option PyDate × String :=
    match find_latest (recent_completions.filter (fun c => c.pm_type = p)) with
    | some latest => (some latest.completion_date, "pm_completions_table")
    | none => (parse_flexible (last_date_field e p), "equipment_table")
  match pair with
  | (none, _) =>
    ⟨.DUE, p.value ++ " PM never completed - HIGH PRIORITY",
      never_priority p, 0⟩
  | (some last_completion_date, source) =>
    let days_since_completion := td_days now (date_secs last_completion_date)
    let params := due_params p
    let min_days := params.1
    let max_days := params.2.1
    let ideal_frequency := params.2.2
    if days_since_completion ≥ min_days then
      let days_overdue := days_since_completion - ideal_frequency
      if days_overdue > 0 then
        ⟨.DUE,
          p.value ++ " PM OVERDUE by " ++ toString days_overdue ++
            " days (last: " ++ fmt_date last_completion_date ++
            ", source: " ++ source ++ ")",
          min (500 + days_overdue * 10) 999, days_overdue⟩
      else if days_since_completion ≤ max_days then
        ⟨.DUE,
          p.value ++ " PM due now (" ++ toString days_since_completion ++
            " days since last, last: " ++ fmt_date last_completion_date ++
            ", source: " ++ source ++ ")",
          300 - |days_since_completion - ideal_frequency|, 0⟩
      else
        ⟨.DUE,
          p.value ++ " PM due (" ++ toString days_since_completion ++
            " days since last, last: " ++ fmt_date last_completion_date ++
            ", source: " ++ source ++ ")", 200, 0⟩
    else
      ⟨.NOT_DUE,
        p.value ++ " PM not due for " ++
          toString (min_days - days_since_completion) ++ " days (last: " ++
          fmt_date last_completion_date ++ ", source: " ++ source ++ ")", 0, 0⟩

/-- `PMEligibilityChecker.check_eligibility` (caches populated; `now` is
`datetime.now()` in seconds). -/
def check_eligibility (repo : RepoCaches) (now : Int) (e : Equipment)
    (p : PMType) (week_start : Int) : PMEligibilityResult :=
  match capability_gate e p with
  | some r => r
  | none =>
  match stale_gate repo e p week_start with
  | some r => r
  | none =>
  match annual_override_gate repo now e p with
  | some r => r
  | none =>
  let recent_completions := get_recent_completions repo e.bfm_no
  match recently_completed_gate recent_completions now p with
  | some r => r
  | none =>
  let conflict_result := check_cross_pm_conflicts recent_completions now p
  if conflict_result.status = PMStatus.CONFLICTED then conflict_result
  else
    match already_scheduled_gate repo e p week_start with
    | some r => r
    | none => check_due_date e p recent_completions now

/-- `_has_custom_template`: membership of `(bfm_no, pm_type.value)` in the
loaded `pm_templates` set. -/
def has_custom_template (tpls : List (String × String)) (bfm_no : String)
    (p : PMType) : Bool :=
  tpls.any (fun t => t.1 = bfm_no ∧ t.2 = p.value)

/-- Build a `PMAssignment` from an eligibility result. -/
def mk_assignment (e : Equipment) (p : PMType) (r : PMEligibilityResult)
    (has_custom : Bool) : PMAssignment :=
  ⟨e.bfm_no, p, e.description, r.priority_score, r.reason, has_custom⟩

/-- `any(a.bfm_no == ... and a.pm_type == ... for a in potential_assignments)`. -/
def has_assignment_for (acc : List PMAssignment) (bfm_no : String)
    (p : PMType) : Bool :=
  acc.any (fun a => a.bfm_no = bfm_no ∧ a.pm_type = p)

/-- Check one PM type and append a candidate when the result is DUE. -/
def add_if_due (repo : RepoCaches) (now : Int) (tpls : List (String × String))
    (week_start : Int) (acc : List PMAssignment) (e : Equipment) (p : PMType) :
    List PMAssignment :=
  let r := check_eligibility repo now e p week_start
  if r.status = PMStatus.DUE then
    acc ++ [mk_assignment e p r (has_custom_template tpls e.bfm_no p)]
  else acc

/-- Weekly block of the equipment loop. -/
def step_weekly (repo : RepoCaches) (now : Int) (tpls : List (String × String))
    (week_start : Int) (e : Equipment) (acc : List PMAssignment) :
    List PMAssignment :=
  if e.has_weekly then add_if_due repo now tpls week_start acc e .WEEKLY
  else acc

/-- Monthly block: skipped when a Weekly assignment for this equipment id
is already among the candidates. -/
def step_monthly (repo : RepoCaches) (now : Int) (tpls : List (String × String))
    (week_start : Int) (e : Equipment) (acc : List PMAssignment) :
    List PMAssignment :=
  if e.has_monthly ∧ has_assignment_for acc e.bfm_no .WEEKLY = false then
    add_if_due repo now tpls week_start acc e .MONTHLY
  else acc

/-- Six-month block: skipped when a Weekly or Monthly assignment for this
equipment id is already among the candidates. -/
def step_six_month (repo : RepoCaches) (now : Int)
    (tpls : List (String × String)) (week_start : Int) (e : Equipment)
    (acc : List PMAssignment) : List PMAssignment :=
  if e.has_six_month ∧ has_assignment_for acc e.bfm_no .WEEKLY = false ∧
      has_assignment_for acc e.bfm_no .MONTHLY = false then
    add_if_due repo now tpls week_start acc e .SIX_MONTH
  else acc

/-- Annual block: skipped when a Weekly, Monthly or Six-Month assignment
for this equipment id is already among the candidates. -/
def step_annual (repo : RepoCaches) (now : Int) (tpls : List (String × String))
    (week_start : Int) (e : Equipment) (acc : List PMAssignment) :
    List PMAssignment :=
  if e.has_annual ∧ has_assignment_for acc e.bfm_no .WEEKLY = false ∧
      has_assignment_for acc e.bfm_no .MONTHLY = false ∧
      has_assignment_for acc e.bfm_no .SIX_MONTH = false then
    add_if_due repo now tpls week_start acc e .ANNUAL
  else acc

/-- The body of the equipment loop of `generate_assignments`: skip
non-Active equipment; weekly, then monthly / six-month / annual, each
guarded by "no higher cadence already assigned to this equipment id". -/
def process_equipment (repo : RepoCaches) (now : Int)
    (tpls : List (String × String)) (week_start : Int)
    (acc : List PMAssignment) (e : Equipment) : List PMAssignment :=
  if e.status = "Active" then
    step_annual repo now tpls week_start e
      (step_six_month repo now tpls week_start e
        (step_monthly repo now tpls week_start e
          (step_weekly repo now tpls week_start e acc)))
  else acc

/-- All DUE candidates collected over the equipment list. -/
def collect_candidates (repo : RepoCaches) (now : Int)
    (tpls : List (String × String)) (week_start : Int)
    (equipment_list : List Equipment) : List PMAssignment :=
  equipment_list.foldl (process_equipment repo now tpls week_start) []

/-- `equipment_priority_map` with the dict `.get(bfm, 99)` default folded
in: Active equipment overwrites, later entries win. -/
def equipment_priority_map (equipment_list : List Equipment) :
    String → Int :=
  equipment_list.foldl
    (fun m e =>
      if e.status = "Active" then
        fun b => if b = e.bfm_no then e.priority else m b
      else m)
    (fun _ => 99)

/-- The composite sort key as a relation: ascending on
`(not has_custom_template, equipment priority, -priority_score)`. -/
def key_le (m : String → Int) (a b : PMAssignment) : Prop :=
  (a.has_custom_template = true ∧ b.has_custom_template = false) ∨
  (a.has_custom_template = b.has_custom_template ∧
    (m a.bfm_no < m b.bfm_no ∨
      (m a.bfm_no = m b.bfm_no ∧ b.priority_score ≤ a.priority_score)))

instance (m : String → Int) (a b : PMAssignment) : Decidable (key_le m a b) := by
  unfold key_le; exact inferInstance

instance key_le_is_total (m : String → Int) : IsTotal PMAssignment (key_le m) := by
  constructor
  intro a b
  unfold key_le
  cases ha : a.has_custom_template <;> cases hb : b.has_custom_template <;>
    simp <;> omega

instance key_le_is_trans (m : String → Int) : IsTrans PMAssignment (key_le m) := by
  constructor
  intro a b c hab hbc
  unfold key_le at *
  cases ha : a.has_custom_template <;> cases hb : b.has_custom_template <;>
    cases hc : c.has_custom_template <;> simp_all <;> omega


/-- `PMAssignmentGenerator.generate_assignments`: collect DUE candidates,
stable-sort by the composite key, truncate to `max_assignments`. -/
def generate_assignments (repo : RepoCaches) (now : Int)
    (tpls : List (String × String)) (equipment_list : List Equipment)
    (week_start : Int) (max_assignments : Nat) : List PMAssignment :=
  let m := equipment_priority_map equipment_list
  (List.insertionSort (key_le m)
      (collect_candidates repo now tpls week_start equipment_list)).take
    max_assignments

/-- Cadence order used by the generator: weekly before monthly before
six-month before annual. -/
def pm_rank : PMType → Nat
  | .WEEKLY => 0
  | .MONTHLY => 1
  | .SIX_MONTH => 2
  | .ANNUAL => 3

/-- The net effect of `process_equipment` on one equipment item when no
candidate for the same equipment id is already present: at most one new
assignment, for the first cadence (in `pm_rank` order) that is flagged and
DUE. -/
def step_result (repo : RepoCaches) (now : Int) (tpls : List (String × String))
    (week_start : Int) (e : Equipment) : Option PMAssignment :=
  if e.status = "Active" then
    if e.has_weekly ∧
        (check_eligibility repo now e .WEEKLY week_start).status = PMStatus.DUE then
      some (mk_assignment e .WEEKLY (check_eligibility repo now e .WEEKLY week_start)
        (has_custom_template tpls e.bfm_no .WEEKLY))
    else if e.has_monthly ∧
        (check_eligibility repo now e .MONTHLY week_start).status = PMStatus.DUE then
      some (mk_assignment e .MONTHLY (check_eligibility repo now e .MONTHLY week_start)
        (has_custom_template tpls e.bfm_no .MONTHLY))
    else if e.has_six_month ∧
        (check_eligibility repo now e .SIX_MONTH week_start).status = PMStatus.DUE then
      some (mk_assignment e .SIX_MONTH (check_eligibility repo now e .SIX_MONTH week_start)
        (has_custom_template tpls e.bfm_no .SIX_MONTH))
    else if e.has_annual ∧
        (check_eligibility repo now e .ANNUAL week_start).status = PMStatus.DUE then
      some (mk_assignment e .ANNUAL (check_eligibility repo now e .ANNUAL week_start)
        (has_custom_template tpls e.bfm_no .ANNUAL))
    else none
  else none

/-- The PM-type strings stored in `weekly_pm_schedules.pm_type`. -/
def canonical_pm_values : List String := ["Weekly", "Monthly", "Six Month", "Annual"]

/-! ### Concrete fixtures used by counterexamples and witnesses -/

/-- A repository state with every cache empty. -/
def repo_empty : RepoCaches :=
  ⟨fun _ => [], fun _ => [], fun _ => [], fun _ => none, []⟩

/-- Weekly-only Active equipment `E1`, never completed. -/
def eq_weekly : Equipment :=
  ⟨"E1", "Pump", true, false, false, false, none, none, none, none, "Active", 99⟩

/-- Monthly-only Active equipment `E4`. -/
def eq_monthly : Equipment :=
  ⟨"E4", "Fan", false, true, false, false, none, none, none, none, "Active", 99⟩

/-- Annual-only Active equipment `E2`, never completed. -/
def eq_annual : Equipment :=
  ⟨"E2", "Crane", false, false, false, true, none, none, none, none, "Active", 99⟩

/-- `datetime.now()` fixed at 2025-02-10 00:00:00 for the fixtures. -/
def now0 : Int := date_secs ⟨2025, 2, 10⟩

/-- Repository whose only record is a Monthly completion of `E4` on
2025-01-01 (40 days before `now0`). -/
def repo_monthly40 : RepoCaches :=
  ⟨fun b => if b = "E4" then [⟨"E4", .MONTHLY, ⟨2025, 1, 1⟩, "Tech A"⟩] else [],
    fun _ => [], fun _ => [], fun _ => none, []⟩

/-- Repository with a `next_annual_pm` override `2025-02-12` for `E2` and
no completion data at all. -/
def repo_next_annual : RepoCaches :=
  ⟨fun _ => [], fun _ => [], fun _ => [],
    fun b => if b = "E2" then some "2025-02-12" else none, []⟩

/-- One stale uncompleted Weekly schedule for `E1` in week `-7`. -/
def db_stale : List SchedRow := [⟨"E1", "Weekly", -7, "Tech C", "Scheduled"⟩]

/-- Repository whose uncompleted cache was bulk-loaded from `db_stale`
for week 0. -/
def repo_stale : RepoCaches :=
  ⟨fun _ => [], fun _ => [], bulk_load_uncompleted_schedules db_stale 0,
    fun _ => none, []⟩

/-- Equipment `X3` with both weekly and annual cadences, never
completed. -/
def eq_weekly_annual : Equipment :=
  ⟨"X3", "Press", true, false, false, true, none, none, none, none, "Active", 99⟩

/-- Weekly-flagged equipment with an empty (falsy) id. -/
def eq_noid : Equipment :=
  ⟨"", "Ghost", true, false, false, false, none, none, none, none, "Active", 99⟩

/-- Repository whose `weekly_pm_schedules` table has one Weekly row for
week 0, nothing else. -/
def repo_week0 : RepoCaches :=
  ⟨fun _ => [], fun _ => [], fun _ => [], fun _ => none,
    [⟨"Z", "Weekly", 0, "Tech B", "Scheduled"⟩]⟩

example :
    check_eligibility repo_empty now0 eq_weekly .WEEKLY 0 =
      ⟨.DUE, "Weekly PM never completed - HIGH PRIORITY", 1100, 0⟩ := by decide

example :
    check_eligibility repo_monthly40 now0 eq_monthly .MONTHLY 0 =
      ⟨.DUE,
        "Monthly PM OVERDUE by 10 days (last: 2025-01-01, source: pm_completions_table)",
        600, 10⟩ := by decide

example :
    check_eligibility repo_next_annual now0 eq_annual .ANNUAL 0 =
      ⟨.DUE, "Annual PM due by Next Annual PM Date: 2025-02-12", 500, 0⟩ := by
  decide

example :
    check_eligibility repo_week0 now0 eq_noid .WEEKLY 0 =
      ⟨.CONFLICTED, "Already scheduled for this week", 0, 0⟩ := by decide

example :
    (check_eligibility repo_week0 now0 eq_noid .WEEKLY 7).status =
      PMStatus.DUE := by decide

example :
    generate_assignments repo_empty now0 [] [eq_weekly, eq_weekly] 0 10 =
      [⟨"E1", .WEEKLY, "Pump", 1100, "Weekly PM never completed - HIGH PRIORITY", false⟩,
       ⟨"E1", .WEEKLY, "Pump", 1100, "Weekly PM never completed - HIGH PRIORITY", false⟩] := by
  decide

example :
    (check_eligibility repo_empty now0 eq_weekly_annual .ANNUAL 0).status =
      PMStatus.DUE := by decide

example :
    generate_assignments repo_empty now0 [] [eq_weekly_annual] 0 10 =
      [⟨"X3", .WEEKLY, "Press", 1100, "Weekly PM never completed - HIGH PRIORITY", false⟩] := by
  decide

/-! ### Gate lemmas -/

theorem capability_gate_none {e : Equipment} {p : PMType}
    (h : cadence_flag e p = true) : capability_gate e p = none := by
  simp [capability_gate, h]

theorem capability_gate_status {e : Equipment} {p : PMType}
    {r : PMEligibilityResult} (h : capability_gate e p = some r) :
    r.status = PMStatus.NOT_DUE := by
  unfold capability_gate at h
  split at h
  · exact Option.noConfusion h
  · cases h; rfl

theorem stale_gate_none {repo : RepoCaches} {e : Equipment} {p : PMType}
    {w : Int} (h : repo.uncompleted_cache (uncomp_key e.bfm_no p.value) = []) :
    stale_gate repo e p w = none := by
  simp [stale_gate, get_uncompleted_schedules, h]

theorem stale_gate_status {repo : RepoCaches} {e : Equipment} {p : PMType}
    {w : Int} {r : PMEligibilityResult} (h : stale_gate repo e p w = some r) :
    r.status = PMStatus.CONFLICTED := by
  unfold stale_gate at h
  split at h
  · exact Option.noConfusion h
  · cases h; rfl

theorem annual_override_gate_not_annual {repo : RepoCaches} {now : Int}
    {e : Equipment} {p : PMType} (h : p ≠ PMType.ANNUAL) :
    annual_override_gate repo now e p = none := by
  simp [annual_override_gate, h]

theorem annual_override_gate_no_date {repo : RepoCaches} {now : Int}
    {e : Equipment} {p : PMType}
    (h : repo.next_annual_cache e.bfm_no = none) :
    annual_override_gate repo now e p = none := by
  unfold annual_override_gate
  split
  · rw [h]
  · rfl

theorem annual_override_gate_score {repo : RepoCaches} {now : Int}
    {e : Equipment} {p : PMType} {r : PMEligibilityResult}
    (h : annual_override_gate repo now e p = some r) :
    r.priority_score ≤ 999 := by
  unfold annual_override_gate at h
  split at h
  · split at h
    · exact Option.noConfusion h
    · split at h
      · exact Option.noConfusion h
      · split at h
        · exact Option.noConfusion h
        · rename_i nd hnd
          dsimp only [] at h
          split at h
          · cases h; simp
          · split at h
            · cases h
              have hm1 : min (td_days (date_secs nd) now) 0 ≤ 0 :=
                min_le_right _ 0
              have habs : |min (td_days (date_secs nd) now) 0| ≤ 30 := by
                rw [abs_of_nonpos hm1]
                omega
              dsimp only []
              omega
            · exact Option.noConfusion h
  · exact Option.noConfusion h

theorem find_latest_eq_none_iff {l : List CompletionRecord} :
    find_latest l = none ↔ l = [] := by
  cases l <;> simp [find_latest]

theorem recently_gate_none_of_empty {rc : List CompletionRecord} {now : Int}
    {p : PMType} (h : rc.filter (fun c => c.pm_type = p) = []) :
    recently_completed_gate rc now p = none := by
  unfold recently_completed_gate
  rw [h]
  rfl

theorem recently_gate_status {rc : List CompletionRecord} {now : Int}
    {p : PMType} {r : PMEligibilityResult}
    (h : recently_completed_gate rc now p = some r) :
    r.status = PMStatus.RECENTLY_COMPLETED := by
  unfold recently_completed_gate at h
  split at h
  · exact Option.noConfusion h
  · dsimp only [] at h
    split at h
    · cases h; rfl
    · exact Option.noConfusion h

theorem already_gate_status {repo : RepoCaches} {e : Equipment} {p : PMType}
    {w : Int} {r : PMEligibilityResult}
    (h : already_scheduled_gate repo e p w = some r) :
    r.status = PMStatus.CONFLICTED := by
  unfold already_scheduled_gate at h
  split at h
  · cases h; rfl
  · exact Option.noConfusion h

theorem already_gate_none {repo : RepoCaches} {e : Equipment} {p : PMType}
    {w : Int} (hb : e.bfm_no ≠ "") (h : repo.scheduled_cache e.bfm_no = []) :
    already_scheduled_gate repo e p w = none := by
  simp [already_scheduled_gate, get_scheduled_pms, hb, h]

/-! ### `check_eligibility` path lemmas -/

theorem check_of_capability_some {repo : RepoCaches} {now : Int}
    {e : Equipment} {p : PMType} {w : Int} {r : PMEligibilityResult}
    (h : capability_gate e p = some r) :
    check_eligibility repo now e p w = r := by
  unfold check_eligibility
  rw [h]

theorem check_of_stale_some {repo : RepoCaches} {now : Int} {e : Equipment}
    {p : PMType} {w : Int} {r : PMEligibilityResult}
    (hc : capability_gate e p = none) (h : stale_gate repo e p w = some r) :
    check_eligibility repo now e p w = r := by
  unfold check_eligibility
  rw [hc, h]

theorem check_of_override_some {repo : RepoCaches} {now : Int} {e : Equipment}
    {p : PMType} {w : Int} {r : PMEligibilityResult}
    (hc : capability_gate e p = none) (hs : stale_gate repo e p w = none)
    (h : annual_override_gate repo now e p = some r) :
    check_eligibility repo now e p w = r := by
  unfold check_eligibility
  rw [hc, hs, h]

theorem check_of_recently_some {repo : RepoCaches} {now : Int} {e : Equipment}
    {p : PMType} {w : Int} {r : PMEligibilityResult}
    (hc : capability_gate e p = none) (hs : stale_gate repo e p w = none)
    (ha : annual_override_gate repo now e p = none)
    (h : recently_completed_gate (repo.completion_cache e.bfm_no) now p = some r) :
    check_eligibility repo now e p w = r := by
  unfold check_eligibility get_recent_completions
  dsimp only []
  rw [hc, hs, ha, h]

theorem check_of_cross_conflicted {repo : RepoCaches} {now : Int}
    {e : Equipment} {p : PMType} {w : Int}
    (hc : capability_gate e p = none) (hs : stale_gate repo e p w = none)
    (ha : annual_override_gate repo now e p = none)
    (hr : recently_completed_gate (repo.completion_cache e.bfm_no) now p = none)
    (h : (check_cross_pm_conflicts (repo.completion_cache e.bfm_no) now p).status =
      PMStatus.CONFLICTED) :
    check_eligibility repo now e p w =
      check_cross_pm_conflicts (repo.completion_cache e.bfm_no) now p := by
  unfold check_eligibility get_recent_completions
  dsimp only []
  rw [hc, hs, ha, hr, if_pos h]

theorem check_of_scheduled_some {repo : RepoCaches} {now : Int} {e : Equipment}
    {p : PMType} {w : Int} {r : PMEligibilityResult}
    (hc : capability_gate e p = none) (hs : stale_gate repo e p w = none)
    (ha : annual_override_gate repo now e p = none)
    (hr : recently_completed_gate (repo.completion_cache e.bfm_no) now p = none)
    (hx : (check_cross_pm_conflicts (repo.completion_cache e.bfm_no) now p).status ≠
      PMStatus.CONFLICTED)
    (h : already_scheduled_gate repo e p w = some r) :
    check_eligibility repo now e p w = r := by
  unfold check_eligibility get_recent_completions
  dsimp only []
  rw [hc, hs, ha, hr, if_neg hx, h]

theorem check_of_due {repo : RepoCaches} {now : Int} {e : Equipment}
    {p : PMType} {w : Int}
    (hc : capability_gate e p = none) (hs : stale_gate repo e p w = none)
    (ha : annual_override_gate repo now e p = none)
    (hr : recently_completed_gate (repo.completion_cache e.bfm_no) now p = none)
    (hx : (check_cross_pm_conflicts (repo.completion_cache e.bfm_no) now p).status ≠
      PMStatus.CONFLICTED)
    (hg : already_scheduled_gate repo e p w = none) :
    check_eligibility repo now e p w =
      check_due_date e p (repo.completion_cache e.bfm_no) now := by
  unfold check_eligibility get_recent_completions
  dsimp only []
  rw [hc, hs, ha, hr, if_neg hx, hg]

theorem check_not_due_of_flag_false {repo : RepoCaches} {now : Int}
    {e : Equipment} {p : PMType} {w : Int} (h : cadence_flag e p = false) :
    (check_eligibility repo now e p w).status = PMStatus.NOT_DUE := by
  have hg : capability_gate e p =
      some ⟨.NOT_DUE, "Equipment doesn\x27t require " ++ p.value ++ " PM", 0, 0⟩ := by
    simp [capability_gate, h]
  rw [check_of_capability_some hg]

theorem check_due_date_never {e : Equipment} {p : PMType}
    {rc : List CompletionRecord} {now : Int}
    (h1 : rc.filter (fun c => c.pm_type = p) = [])
    (h2 : parse_flexible (last_date_field e p) = none) :
    check_due_date e p rc now =
      ⟨.DUE, p.value ++ " PM never completed - HIGH PRIORITY",
        never_priority p, 0⟩ := by
  unfold check_due_date
  rw [h1]
  simp [find_latest, h2]

/-! ### Claim C7 -/

/-- C7: for every equipment list, week start and capacity `N ≥ 0`, the
list returned by `generate_assignments` has length at most `N`. -/
theorem c7_capacity_bound (repo : RepoCaches) (now : Int)
    (tpls : List (String × String)) (equipment_list : List Equipment)
    (week_start : Int) (max_assignments : Nat) :
    (generate_assignments repo now tpls equipment_list week_start
      max_assignments).length ≤ max_assignments := by
  unfold generate_assignments
  simp [List.length_take]

/-! ### Claim C9 -/

/-- C9 (amended): once the caches are populated, `check_eligibility` does
not depend on `week_start` — provided the equipment id is non-empty (a
falsy id makes `get_scheduled_pms` bypass the cache and run the per-week
query). -/
theorem c9_week_start_irrelevant (repo : RepoCaches) (now : Int)
    (e : Equipment) (p : PMType) (w1 w2 : Int) (h : e.bfm_no ≠ "") :
    check_eligibility repo now e p w1 = check_eligibility repo now e p w2 := by
  have hps : ∀ w : Int,
      get_scheduled_pms repo w e.bfm_no = repo.scheduled_cache e.bfm_no := by
    intro w
    simp [get_scheduled_pms, h]
  have hsg : already_scheduled_gate repo e p w1 =
      already_scheduled_gate repo e p w2 := by
    unfold already_scheduled_gate
    rw [hps w1, hps w2]
  unfold check_eligibility
  rw [hsg]
  rfl

/-- C9 counterexample: with all caches populated, an equipment whose
`bfm_no` is the empty string still reaches the live `weekly_pm_schedules`
query, so `check_eligibility` differs between two `week_start` values. -/
theorem c9_counterexample :
    check_eligibility repo_week0 now0 eq_noid .WEEKLY 0 ≠
      check_eligibility repo_week0 now0 eq_noid .WEEKLY 7 := by decide

/-- Witness for C9 at a concrete input. -/
theorem c9_witness :
    check_eligibility repo_empty now0 eq_weekly .WEEKLY 0 =
      check_eligibility repo_empty now0 eq_weekly .WEEKLY 7 :=
  c9_week_start_irrelevant repo_empty now0 eq_weekly .WEEKLY 0 7 (by decide)

/-! ### Claim C10 -/

/-- C10: an annual-override date more than 30 days in the past is silently
ignored — the eligibility outcome is exactly the one obtained with no
override date present. -/
theorem c10_override_expired_ignored (repo : RepoCaches) (now : Int)
    (e : Equipment) (s : String) (d : PyDate) (w : Int)
    (h1 : repo.next_annual_cache e.bfm_no = some s)
    (h2 : parse_flexible (some s) = some d)
    (h3 : td_days (date_secs d) now < -30) :
    check_eligibility repo now e .ANNUAL w =
      check_eligibility { repo with next_annual_cache := fun _ => none } now e
        .ANNUAL w := by
  have hs : s ≠ "" := by
    intro he
    subst he
    rw [show parse_flexible (some "") = none from rfl] at h2
    exact Option.noConfusion h2
  have hg : annual_override_gate repo now e .ANNUAL = none := by
    unfold annual_override_gate
    rw [if_pos rfl, h1]
    dsimp only []
    rw [if_neg hs, h2]
    dsimp only []
    rw [if_neg (by omega : ¬ td_days (date_secs d) now > 7),
      if_neg (by omega : ¬ td_days (date_secs d) now ≥ -30)]
  have hg' : annual_override_gate
      { repo with next_annual_cache := fun _ => none } now e .ANNUAL = none :=
    annual_override_gate_no_date rfl
  unfold check_eligibility
  rw [hg, hg']
  rfl

/-- Witness for C10 at a concrete input. -/
theorem c10_witness :
    check_eligibility repo_next_annual (date_secs ⟨2026, 1, 1⟩) eq_annual
        .ANNUAL 0 =
      check_eligibility
        { repo_next_annual with next_annual_cache := fun _ => none }
        (date_secs ⟨2026, 1, 1⟩) eq_annual .ANNUAL 0 :=
  c10_override_expired_ignored repo_next_annual (date_secs ⟨2026, 1, 1⟩)
    eq_annual "2025-02-12" ⟨2025, 2, 12⟩ 0 (by decide) (by decide) (by decide)

/-! ### Claim C5 -/

/-- C5: for annual eligibility with the cadence flag set, no stale
schedules and a present, parseable `next_annual_pm` date, the override
decides the outcome: more than 7 days ahead gives NOT_DUE naming the date
and days-until; within 7 days ahead through 30 days past gives DUE with
score `500 + min(0, days_until) * (-10)` and `days_overdue =
-min(0, days_until)`, citing the target date — regardless of completions,
cross-cadence state or the generic interval calculation. -/
theorem c5_annual_override (repo : RepoCaches) (now : Int) (e : Equipment)
    (s : String) (d : PyDate) (w : Int)
    (hA : e.has_annual = true)
    (hU : repo.uncompleted_cache (uncomp_key e.bfm_no "Annual") = [])
    (hN : repo.next_annual_cache e.bfm_no = some s)
    (hP : parse_flexible (some s) = some d) :
    (td_days (date_secs d) now > 7 →
      check_eligibility repo now e .ANNUAL w =
        ⟨.NOT_DUE,
          "Annual PM scheduled for " ++ fmt_date d ++ " (" ++
            toString (td_days (date_secs d) now) ++ " days from now)", 0, 0⟩) ∧
    (-30 ≤ td_days (date_secs d) now → td_days (date_secs d) now ≤ 7 →
      check_eligibility repo now e .ANNUAL w =
        ⟨.DUE, "Annual PM due by Next Annual PM Date: " ++ fmt_date d,
          500 + min 0 (td_days (date_secs d) now) * (-10),
          -(min 0 (td_days (date_secs d) now))⟩) := by
  have hs : s ≠ "" := by
    intro he
    subst he
    rw [show parse_flexible (some "") = none from rfl] at hP
    exact Option.noConfusion hP
  have hcap : capability_gate e .ANNUAL = none :=
    capability_gate_none (by simpa [cadence_flag] using hA)
  have hstale : stale_gate repo e .ANNUAL w = none := stale_gate_none hU
  constructor
  · intro h7
    have hgate : annual_override_gate repo now e .ANNUAL =
        some ⟨.NOT_DUE,
          "Annual PM scheduled for " ++ fmt_date d ++ " (" ++
            toString (td_days (date_secs d) now) ++ " days from now)", 0, 0⟩ := by
      unfold annual_override_gate
      rw [if_pos rfl, hN]
      dsimp only []
      rw [if_neg hs, hP]
      dsimp only []
      rw [if_pos h7]
    exact check_of_override_some hcap hstale hgate
  · intro hge hle
    have hmin : min (td_days (date_secs d) now) 0 =
        min 0 (td_days (date_secs d) now) := min_comm _ _
    have habs : |min (td_days (date_secs d) now) 0| =
        -(min 0 (td_days (date_secs d) now)) := by
      rw [abs_of_nonpos (min_le_right _ 0), hmin]
    have hgate : annual_override_gate repo now e .ANNUAL =
        some ⟨.DUE, "Annual PM due by Next Annual PM Date: " ++ fmt_date d,
          500 + min 0 (td_days (date_secs d) now) * (-10),
          -(min 0 (td_days (date_secs d) now))⟩ := by
      unfold annual_override_gate
      rw [if_pos rfl, hN]
      dsimp only []
      rw [if_neg hs, hP]
      dsimp only []
      rw [if_neg (by omega : ¬ td_days (date_secs d) now > 7),
        if_pos (by omega : td_days (date_secs d) now ≥ -30)]
      have e1 : 500 + |min (td_days (date_secs d) now) 0| * 10 =
          500 + min 0 (td_days (date_secs d) now) * (-10) := by
        rw [habs]
        ring
      rw [e1, habs]
    exact check_of_override_some hcap hstale hgate

/-- Witness for C5 at a concrete input (override two days ahead). -/
theorem c5_witness :
    check_eligibility repo_next_annual now0 eq_annual .ANNUAL 0 =
      ⟨.DUE, "Annual PM due by Next Annual PM Date: 2025-02-12", 500, 0⟩ := by
  have h :=
    (c5_annual_override repo_next_annual now0 eq_annual "2025-02-12"
      ⟨2025, 2, 12⟩ 0 (by decide) (by decide) (by decide) (by decide)).2
      (by decide) (by decide)
  rw [h]
  decide

/-! ### Claim C3 -/

/-- C3 counterexample: at exactly the input described by the claim
(monthly cadence, single Monthly completion 40 days before now, no stale
or scheduled entries) the checker returns DUE with priority 600, not the
claimed `min(500+5*10, 999) = 550`: the code computes
`days_overdue = days_since - ideal_frequency = 40 - 30 = 10`. -/
theorem c3_counterexample :
    (check_eligibility repo_monthly40 now0 eq_monthly .MONTHLY 0).status =
        PMStatus.DUE ∧
      (check_eligibility repo_monthly40 now0 eq_monthly .MONTHLY 0).priority_score
          = 600 ∧
        (check_eligibility repo_monthly40 now0 eq_monthly .MONTHLY 0).priority_score
          ≠ 550 := by decide

/-- C3 (amended): with the claim's configuration — `has_monthly`, most
recent (and only) Monthly completion 40 days before the current date, no
stale uncompleted schedules, nothing scheduled this week — the result is
DUE with `days_overdue = 40 - 30 = 10` and
`priority_score = min(500 + 10*10, 999) = 600`. -/
theorem c3_amended (repo : RepoCaches) (now : Int) (e : Equipment)
    (c : CompletionRecord) (w : Int)
    (hM : e.has_monthly = true)
    (hb : e.bfm_no ≠ "")
    (hU : repo.uncompleted_cache (uncomp_key e.bfm_no "Monthly") = [])
    (hS : repo.scheduled_cache e.bfm_no = [])
    (hC : repo.completion_cache e.bfm_no = [c])
    (hcp : c.pm_type = PMType.MONTHLY)
    (h40 : td_days now (date_secs c.completion_date) = 40) :
    (check_eligibility repo now e .MONTHLY w).status = PMStatus.DUE ∧
      (check_eligibility repo now e .MONTHLY w).priority_score = 600 ∧
        (check_eligibility repo now e .MONTHLY w).days_overdue = 10 := by
  have hcap : capability_gate e .MONTHLY = none :=
    capability_gate_none (by simpa [cadence_flag] using hM)
  have hstale : stale_gate repo e .MONTHLY w = none := stale_gate_none hU
  have hover : annual_override_gate repo now e .MONTHLY = none :=
    annual_override_gate_not_annual (by decide)
  have hfilter : (repo.completion_cache e.bfm_no).filter
      (fun x => x.pm_type = PMType.MONTHLY) = [c] := by
    rw [hC]
    simp [hcp]
  have hwfilter : (repo.completion_cache e.bfm_no).filter
      (fun x => x.pm_type = PMType.WEEKLY) = [] := by
    rw [hC]
    simp [hcp]
  have hafilter : (repo.completion_cache e.bfm_no).filter
      (fun x => x.pm_type = PMType.ANNUAL) = [] := by
    rw [hC]
    simp [hcp]
  have hrec : recently_completed_gate (repo.completion_cache e.bfm_no) now
      .MONTHLY = none := by
    unfold recently_completed_gate
    rw [hfilter, show find_latest [c] = some c from rfl]
    dsimp only []
    rw [h40]
    norm_num [get_minimum_interval]
  have hcross : (check_cross_pm_conflicts (repo.completion_cache e.bfm_no) now
      .MONTHLY).status ≠ PMStatus.CONFLICTED := by
    unfold check_cross_pm_conflicts cross_block
    rw [hwfilter, hafilter]
    simp [find_latest]
  have hsched : already_scheduled_gate repo e .MONTHLY w = none :=
    already_gate_none hb hS
  rw [check_of_due hcap hstale hover hrec hcross hsched]
  unfold check_due_date
  rw [hfilter, show find_latest [c] = some c from rfl]
  dsimp only []
  rw [h40]
  norm_num [due_params, min_def]

/-- Witness for the amended C3 at a concrete input. -/
theorem c3_witness :
    (check_eligibility repo_monthly40 now0 eq_monthly .MONTHLY 5).status =
        PMStatus.DUE ∧
      (check_eligibility repo_monthly40 now0 eq_monthly .MONTHLY 5).priority_score
          = 600 ∧
        (check_eligibility repo_monthly40 now0 eq_monthly .MONTHLY 5).days_overdue
          = 10 :=
  c3_amended repo_monthly40 now0 eq_monthly
    ⟨"E4", .MONTHLY, ⟨2025, 1, 1⟩, "Tech A"⟩ 5 (by decide) (by decide)
    (by decide) (by decide) (by decide) (by decide) (by decide)

/-! ### Claim C4 -/

theorem check_due_date_score_completed {e : Equipment} {p : PMType}
    {rc : List CompletionRecord} {now : Int}
    (h : rc.filter (fun c => c.pm_type = p) ≠ []) :
    (check_due_date e p rc now).priority_score ≤ 999 := by
  obtain ⟨c0, hc0⟩ : ∃ c0,
      find_latest (rc.filter (fun c => c.pm_type = p)) = some c0 := by
    cases hfl : find_latest (rc.filter (fun c => c.pm_type = p)) with
    | none => exact absurd (find_latest_eq_none_iff.mp hfl) h
    | some c0 => exact ⟨c0, rfl⟩
  unfold check_due_date
  rw [hc0]
  dsimp only []
  split
  · split
    · dsimp only []
      exact min_le_right _ _
    · split
      · dsimp only []
        have := abs_nonneg
          (td_days now (date_secs c0.completion_date) - (due_params p).2.2)
        omega
      · dsimp only []
        omega
  · dsimp only []
    omega

/-- C4 (amended): (1) a DUE verdict for a never-completed (equipment,
cadence) pair that is not decided by the annual-override gate carries the
maximal band score `never_priority` ∈ {900, 950, 1000, 1100}; (2) every
DUE verdict for a previously-completed pair has score at most 999; (3) the
weekly and monthly bands (1100, 1000) therefore strictly exceed every such
score, while the six-month (950) and annual (900) bands need not. -/
theorem c4_never_completed_band :
    (∀ (repo : RepoCaches) (now : Int) (e : Equipment) (p : PMType) (w : Int),
      (repo.completion_cache e.bfm_no).filter (fun c => c.pm_type = p) = [] →
      parse_flexible (last_date_field e p) = none →
      repo.next_annual_cache e.bfm_no = none →
      (check_eligibility repo now e p w).status = PMStatus.DUE →
      (check_eligibility repo now e p w).priority_score = never_priority p ∧
        (never_priority p = 900 ∨ never_priority p = 950 ∨
          never_priority p = 1000 ∨ never_priority p = 1100)) ∧
    (∀ (repo : RepoCaches) (now : Int) (e : Equipment) (p : PMType) (w : Int),
      (repo.completion_cache e.bfm_no).filter (fun c => c.pm_type = p) ≠ [] →
      (check_eligibility repo now e p w).status = PMStatus.DUE →
      (check_eligibility repo now e p w).priority_score ≤ 999) ∧
    (999 < never_priority PMType.WEEKLY ∧ 999 < never_priority PMType.MONTHLY) := by
  refine ⟨?_, ?_, by decide⟩
  · intro repo now e p w h1 h2 h3 hDUE
    have hover := @annual_override_gate_no_date repo now e p h3
    cases hcap : capability_gate e p with
    | some r =>
      rw [check_of_capability_some hcap, capability_gate_status hcap] at hDUE
      exact PMStatus.noConfusion hDUE
    | none =>
    cases hst : stale_gate repo e p w with
    | some r =>
      rw [check_of_stale_some hcap hst, stale_gate_status hst] at hDUE
      exact PMStatus.noConfusion hDUE
    | none =>
    have hrec := @recently_gate_none_of_empty (repo.completion_cache e.bfm_no) now p h1
    by_cases hx : (check_cross_pm_conflicts (repo.completion_cache e.bfm_no)
        now p).status = PMStatus.CONFLICTED
    · rw [check_of_cross_conflicted hcap hst hover hrec hx] at hDUE
      rw [hDUE] at hx
      exact PMStatus.noConfusion hx
    · cases hsch : already_scheduled_gate repo e p w with
      | some r =>
        rw [check_of_scheduled_some hcap hst hover hrec hx hsch,
          already_gate_status hsch] at hDUE
        exact PMStatus.noConfusion hDUE
      | none =>
        rw [check_of_due hcap hst hover hrec hx hsch,
          check_due_date_never h1 h2]
        exact ⟨rfl, by cases p <;> simp [never_priority]⟩
  · intro repo now e p w h1 hDUE
    cases hcap : capability_gate e p with
    | some r =>
      rw [check_of_capability_some hcap, capability_gate_status hcap] at hDUE
      exact PMStatus.noConfusion hDUE
    | none =>
    cases hst : stale_gate repo e p w with
    | some r =>
      rw [check_of_stale_some hcap hst, stale_gate_status hst] at hDUE
      exact PMStatus.noConfusion hDUE
    | none =>
    cases hover : annual_override_gate repo now e p with
    | some r =>
      rw [check_of_override_some hcap hst hover]
      exact annual_override_gate_score hover
    | none =>
    cases hrec : recently_completed_gate (repo.completion_cache e.bfm_no)
        now p with
    | some r =>
      rw [check_of_recently_some hcap hst hover hrec,
        recently_gate_status hrec] at hDUE
      exact PMStatus.noConfusion hDUE
    | none =>
    by_cases hx : (check_cross_pm_conflicts (repo.completion_cache e.bfm_no)
        now p).status = PMStatus.CONFLICTED
    · rw [check_of_cross_conflicted hcap hst hover hrec hx] at hDUE
      rw [hDUE] at hx
      exact PMStatus.noConfusion hx
    · cases hsch : already_scheduled_gate repo e p w with
      | some r =>
        rw [check_of_scheduled_some hcap hst hover hrec hx hsch,
          already_gate_status hsch] at hDUE
        exact PMStatus.noConfusion hDUE
      | none =>
        rw [check_of_due hcap hst hover hrec hx hsch]
        exact check_due_date_score_completed h1

/-- C4 counterexample: a never-completed annual pair (no completion
record, no parseable equipment-table date) whose `next_annual_pm` override
is within the window receives a DUE verdict with score 500 — outside the
claimed {900, 950, 1000, 1100} band. -/
theorem c4_counterexample :
    (repo_next_annual.completion_cache "E2" = [] ∧
        parse_flexible (last_date_field eq_annual .ANNUAL) = none) ∧
      (check_eligibility repo_next_annual now0 eq_annual .ANNUAL 0).status =
          PMStatus.DUE ∧
        (check_eligibility repo_next_annual now0 eq_annual .ANNUAL 0).priority_score
            = 500 ∧
          ¬((check_eligibility repo_next_annual now0 eq_annual .ANNUAL 0).priority_score
                = 900 ∨
              (check_eligibility repo_next_annual now0 eq_annual .ANNUAL 0).priority_score
                  = 950 ∨
                (check_eligibility repo_next_annual now0 eq_annual .ANNUAL 0).priority_score
                    = 1000 ∨
                  (check_eligibility repo_next_annual now0 eq_annual .ANNUAL 0).priority_score
                      = 1100) := by decide

/-- Witness for the amended C4 at concrete inputs. -/
theorem c4_witness :
    (check_eligibility repo_empty now0 eq_weekly .WEEKLY 0).priority_score =
        never_priority .WEEKLY ∧
      (check_eligibility repo_monthly40 now0 eq_monthly .MONTHLY 0).priority_score
        ≤ 999 :=
  ⟨(c4_never_completed_band.1 repo_empty now0 eq_weekly .WEEKLY 0 (by decide)
      (by decide) (by decide) (by decide)).1,
    c4_never_completed_band.2.1 repo_monthly40 now0 eq_monthly .MONTHLY 0
      (by decide) (by decide)⟩

/-! ### Claim C8 -/

theorem strptime_fmt_empty (sep : Char) (o : Ord3) :
    strptime_fmt sep o "" = none := rfl

/-- C8: `parse_flexible` is total (never raises): `None` and the empty
string map to `None`; otherwise the five formats are tried in priority
order — ISO `YYYY-MM-DD` first, then `MM/DD/YYYY`, `DD/MM/YYYY`,
`YYYY/MM/DD`, `MM-DD-YYYY` — the first success is returned, and if every
format fails the result is `None`. -/
theorem c8_parse_flexible_spec :
    parse_flexible none = none ∧
    parse_flexible (some "") = none ∧
    (∀ s d, strptime_fmt '-' .ymd s = some d →
      parse_flexible (some s) = some d) ∧
    (∀ s d, strptime_fmt '-' .ymd s = none →
      strptime_fmt '/' .mdy s = some d → parse_flexible (some s) = some d) ∧
    (∀ s d, strptime_fmt '-' .ymd s = none → strptime_fmt '/' .mdy s = none →
      strptime_fmt '/' .dmy s = some d → parse_flexible (some s) = some d) ∧
    (∀ s d, strptime_fmt '-' .ymd s = none → strptime_fmt '/' .mdy s = none →
      strptime_fmt '/' .dmy s = none → strptime_fmt '/' .ymd s = some d →
      parse_flexible (some s) = some d) ∧
    (∀ s d, strptime_fmt '-' .ymd s = none → strptime_fmt '/' .mdy s = none →
      strptime_fmt '/' .dmy s = none → strptime_fmt '/' .ymd s = none →
      strptime_fmt '-' .mdy s = some d → parse_flexible (some s) = some d) ∧
    (∀ s, strptime_fmt '-' .ymd s = none → strptime_fmt '/' .mdy s = none →
      strptime_fmt '/' .dmy s = none → strptime_fmt '/' .ymd s = none →
      strptime_fmt '-' .mdy s = none → parse_flexible (some s) = none) := by
  have hne : ∀ (s : String) (sep : Char) (o : Ord3) (d : PyDate),
      strptime_fmt sep o s = some d → s ≠ "" := by
    intro s sep o d hsd he
    subst he
    rw [strptime_fmt_empty] at hsd
    exact Option.noConfusion hsd
  refine ⟨rfl, rfl, ?_, ?_, ?_, ?_, ?_, ?_⟩
  · intro s d h1
    unfold parse_flexible
    dsimp only []
    rw [if_neg (hne s _ _ _ h1), h1]
  · intro s d h1 h2
    unfold parse_flexible
    dsimp only []
    rw [if_neg (hne s _ _ _ h2), h1, h2]
  · intro s d h1 h2 h3
    unfold parse_flexible
    dsimp only []
    rw [if_neg (hne s _ _ _ h3), h1, h2, h3]
  · intro s d h1 h2 h3 h4
    unfold parse_flexible
    dsimp only []
    rw [if_neg (hne s _ _ _ h4), h1, h2, h3, h4]
  · intro s d h1 h2 h3 h4 h5
    unfold parse_flexible
    dsimp only []
    rw [if_neg (hne s _ _ _ h5), h1, h2, h3, h4, h5]
  · intro s h1 h2 h3 h4 h5
    by_cases he : s = ""
    · subst he
      rfl
    · unfold parse_flexible
      dsimp only []
      rw [if_neg he, h1, h2, h3, h4, h5]

/-- Witness for C8: a concrete string that fails ISO and `MM/DD/YYYY` and
succeeds at `DD/MM/YYYY`. -/
theorem c8_witness : parse_flexible (some "13/05/2024") = some ⟨2024, 5, 13⟩ :=
  c8_parse_flexible_spec.2.2.2.2.1 "13/05/2024" ⟨2024, 5, 13⟩ (by decide)
    (by decide) (by decide)

/-! ### Claim C6 -/

/-- C6: the output of `generate_assignments` is sorted by the composite
key: custom-template assignments precede non-custom ones; within equal
custom status, ascending equipment priority; within equal priority,
descending priority score. -/
theorem c6_ordering (repo : RepoCaches) (now : Int)
    (tpls : List (String × String)) (equipment_list : List Equipment)
    (week_start : Int) (max_assignments : Nat) :
    (generate_assignments repo now tpls equipment_list week_start
        max_assignments).Pairwise
      (key_le (equipment_priority_map equipment_list)) := by
  unfold generate_assignments
  exact List.Pairwise.sublist (List.take_sublist _ _)
    (List.sorted_insertionSort _ _)

/-! ### Claim C2 -/

theorem suffix_total_of_append {α : Type} {l1 l2 s1 s2 : List α}
    (h : l1 ++ s1 = l2 ++ s2) : s1 <:+ s2 ∨ s2 <:+ s1 := by
  have t1 : s1 <:+ (l2 ++ s2) := ⟨l1, h⟩
  have t2 : s2 <:+ (l2 ++ s2) := ⟨l2, rfl⟩
  rw [← List.reverse_prefix] at t1 t2
  rcases List.prefix_or_prefix_of_prefix t1 t2 with hp | hp
  · left
    rw [← List.reverse_prefix]
    exact hp
  · right
    rw [← List.reverse_prefix]
    exact hp

theorem pm_value_mem_canonical (p : PMType) : p.value ∈ canonical_pm_values := by
  cases p <;> simp [PMType.value, canonical_pm_values]

theorem uncomp_key_inj {b1 b2 v1 v2 : String}
    (h1 : v1 ∈ canonical_pm_values) (h2 : v2 ∈ canonical_pm_values)
    (h : uncomp_key b1 v1 = uncomp_key b2 v2) : b1 = b2 ∧ v1 = v2 := by
  have hd : b1.data ++ ('_' :: v1.data) = b2.data ++ ('_' :: v2.data) := by
    have hc := congrArg String.data h
    simpa [uncomp_key, String.data_append] using hc
  have hmem : ∀ v : String, v ∈ canonical_pm_values →
      v = "Weekly" ∨ v = "Monthly" ∨ v = "Six Month" ∨ v = "Annual" := by
    intro v hv
    simpa [canonical_pm_values] using hv
  rcases hmem v1 h1 with rfl | rfl | rfl | rfl <;>
    rcases hmem v2 h2 with rfl | rfl | rfl | rfl <;>
    first
      | exact ⟨String.ext (List.append_inj' hd rfl).1, rfl⟩
      | (rcases suffix_total_of_append hd with hs | hs <;>
          exact absurd hs (by decide))

/-- C2: when the uncompleted-schedules cache was bulk-loaded for
`week_start` from a `weekly_pm_schedules` table whose `pm_type` strings
are the four cadence names, any equipment whose cadence flag is set and
that has an uncompleted (`status = 'Scheduled'`) row of that PM type in a
week before `week_start` is CONFLICTED — regardless of its due-date
state — and the reason names a stale week and its assigned technician
(the function is total, so no exception is possible). -/
theorem c2_stale_schedule_blocks (db : List SchedRow) (repo : RepoCaches)
    (now : Int) (e : Equipment) (p : PMType) (week_start : Int)
    (hdb : ∀ r ∈ db, r.pm_type ∈ canonical_pm_values)
    (hcache : repo.uncompleted_cache =
      bulk_load_uncompleted_schedules db week_start)
    (hflag : cadence_flag e p = true)
    (hex : ∃ r ∈ db, r.bfm_equipment_no = e.bfm_no ∧ r.pm_type = p.value ∧
      r.status = "Scheduled" ∧ r.week_start_date < week_start) :
    (check_eligibility repo now e p week_start).status = PMStatus.CONFLICTED ∧
    ∃ r ∈ db, r.bfm_equipment_no = e.bfm_no ∧ r.pm_type = p.value ∧
      r.status = "Scheduled" ∧ r.week_start_date < week_start ∧
      (check_eligibility repo now e p week_start).reason =
        stale_reason r.week_start_date r.assigned_technician := by
  obtain ⟨r0, hr0db, hr0b, hr0p, hr0s, hr0w⟩ := hex
  have hr0f : r0 ∈ db.filter (fun r => r.week_start_date < week_start ∧
      r.status = "Scheduled" ∧ uncomp_key r.bfm_equipment_no r.pm_type =
        uncomp_key e.bfm_no p.value) := by
    rw [List.mem_filter]
    exact ⟨hr0db, by simp [hr0w, hr0s, hr0b, hr0p]⟩
  have hfne : db.filter (fun r => r.week_start_date < week_start ∧
      r.status = "Scheduled" ∧ uncomp_key r.bfm_equipment_no r.pm_type =
        uncomp_key e.bfm_no p.value) ≠ [] := List.ne_nil_of_mem hr0f
  have hsne : List.insertionSort week_desc (db.filter
      (fun r => r.week_start_date < week_start ∧ r.status = "Scheduled" ∧
        uncomp_key r.bfm_equipment_no r.pm_type =
          uncomp_key e.bfm_no p.value)) ≠ [] := by
    intro hE
    have hperm := List.perm_insertionSort week_desc (db.filter
      (fun r => r.week_start_date < week_start ∧ r.status = "Scheduled" ∧
        uncomp_key r.bfm_equipment_no r.pm_type =
          uncomp_key e.bfm_no p.value))
    rw [hE] at hperm
    exact hfne (hperm.symm.eq_nil)
  have htne : (List.insertionSort week_desc (db.filter
      (fun r => r.week_start_date < week_start ∧ r.status = "Scheduled" ∧
        uncomp_key r.bfm_equipment_no r.pm_type =
          uncomp_key e.bfm_no p.value))).take 5 ≠ [] := by
    intro hE
    have hlen := congrArg List.length hE
    rw [List.length_take] at hlen
    have hpos := List.length_pos.mpr hsne
    simp only [List.length_nil] at hlen
    omega
  have hbucket : repo.uncompleted_cache (uncomp_key e.bfm_no p.value) =
      ((List.insertionSort week_desc (db.filter
        (fun r => r.week_start_date < week_start ∧ r.status = "Scheduled" ∧
          uncomp_key r.bfm_equipment_no r.pm_type =
            uncomp_key e.bfm_no p.value))).take 5).map
        (fun r => ⟨r.week_start_date, r.assigned_technician⟩) := by
    rw [hcache]
    rfl
  have hgl : (repo.uncompleted_cache (uncomp_key e.bfm_no p.value)).getLast? =
      some ⟨((List.insertionSort week_desc (db.filter
          (fun r => r.week_start_date < week_start ∧ r.status = "Scheduled" ∧
            uncomp_key r.bfm_equipment_no r.pm_type =
              uncomp_key e.bfm_no p.value))).take 5).getLast htne |>.week_start_date,
        ((List.insertionSort week_desc (db.filter
          (fun r => r.week_start_date < week_start ∧ r.status = "Scheduled" ∧
            uncomp_key r.bfm_equipment_no r.pm_type =
              uncomp_key e.bfm_no p.value))).take 5).getLast htne |>.assigned_technician⟩ := by
    rw [hbucket, List.getLast?_map, List.getLast?_eq_getLast _ htne]
    rfl
  have hr1tk := List.getLast_mem htne
  have hr1srt := (List.take_sublist 5 _).subset hr1tk
  have hr1f := (List.perm_insertionSort week_desc _).subset hr1srt
  rw [List.mem_filter] at hr1f
  obtain ⟨hr1db, hr1pred⟩ := hr1f
  rw [decide_eq_true_iff] at hr1pred
  obtain ⟨hr1w, hr1s, hr1k⟩ := hr1pred
  obtain ⟨hr1b, hr1p⟩ := uncomp_key_inj (hdb _ hr1db)
    (pm_value_mem_canonical p) hr1k
  have hgate : stale_gate repo e p week_start =
      some ⟨.CONFLICTED,
        stale_reason
          (((List.insertionSort week_desc (db.filter
            (fun r => r.week_start_date < week_start ∧ r.status = "Scheduled" ∧
              uncomp_key r.bfm_equipment_no r.pm_type =
                uncomp_key e.bfm_no p.value))).take 5).getLast htne).week_start_date
          (((List.insertionSort week_desc (db.filter
            (fun r => r.week_start_date < week_start ∧ r.status = "Scheduled" ∧
              uncomp_key r.bfm_equipment_no r.pm_type =
                uncomp_key e.bfm_no p.value))).take 5).getLast htne).assigned_technician,
        0, 0⟩ := by
    unfold stale_gate get_uncompleted_schedules
    rw [hgl]
  rw [check_of_stale_some (capability_gate_none hflag) hgate]
  exact ⟨rfl, _, hr1db, hr1b, hr1p, hr1s, hr1w, rfl⟩

/-- Witness for C2 at a concrete input. -/
theorem c2_witness :
    (check_eligibility repo_stale now0 eq_weekly .WEEKLY 0).status =
        PMStatus.CONFLICTED ∧
      ∃ r ∈ db_stale, r.bfm_equipment_no = eq_weekly.bfm_no ∧
        r.pm_type = (PMType.WEEKLY).value ∧ r.status = "Scheduled" ∧
        r.week_start_date < 0 ∧
        (check_eligibility repo_stale now0 eq_weekly .WEEKLY 0).reason =
          stale_reason r.week_start_date r.assigned_technician :=
  c2_stale_schedule_blocks db_stale repo_stale now0 eq_weekly .WEEKLY 0
    (by decide) rfl (by decide) (by decide)

/-! ### Claim C1 -/

theorem has_assignment_for_append {acc : List PMAssignment} {a : PMAssignment}
    {b : String} {p : PMType} :
    has_assignment_for (acc ++ [a]) b p =
      (has_assignment_for acc b p || decide (a.bfm_no = b ∧ a.pm_type = p)) := by
  simp [has_assignment_for, List.any_append]

theorem has_assignment_for_of_ne {acc : List PMAssignment} {b : String}
    {p : PMType} (h : ∀ a ∈ acc, a.bfm_no ≠ b) :
    has_assignment_for acc b p = false := by
  rw [has_assignment_for, List.any_eq_false]
  intro a ha
  simp only [decide_eq_true_eq, not_and]
  intro hb
  exact absurd hb (h a ha)

theorem add_if_due_of_due {repo : RepoCaches} {now : Int}
    {tpls : List (String × String)} {w : Int} {acc : List PMAssignment}
    {e : Equipment} {p : PMType}
    (h : (check_eligibility repo now e p w).status = PMStatus.DUE) :
    add_if_due repo now tpls w acc e p =
      acc ++ [mk_assignment e p (check_eligibility repo now e p w)
        (has_custom_template tpls e.bfm_no p)] := by
  unfold add_if_due
  rw [if_pos h]

theorem add_if_due_of_not_due {repo : RepoCaches} {now : Int}
    {tpls : List (String × String)} {w : Int} {acc : List PMAssignment}
    {e : Equipment} {p : PMType}
    (h : ¬ (check_eligibility repo now e p w).status = PMStatus.DUE) :
    add_if_due repo now tpls w acc e p = acc := by
  unfold add_if_due
  rw [if_neg h]

theorem step_weekly_of_due {repo now tpls w e acc}
    (hw : e.has_weekly = true)
    (hd : (check_eligibility repo now e .WEEKLY w).status = PMStatus.DUE) :
    step_weekly repo now tpls w e acc =
      acc ++ [mk_assignment e .WEEKLY (check_eligibility repo now e .WEEKLY w)
        (has_custom_template tpls e.bfm_no .WEEKLY)] := by
  unfold step_weekly
  rw [if_pos hw, add_if_due_of_due hd]

theorem step_weekly_of_not {repo now tpls w e acc}
    (h : ¬(e.has_weekly = true ∧
      (check_eligibility repo now e .WEEKLY w).status = PMStatus.DUE)) :
    step_weekly repo now tpls w e acc = acc := by
  unfold step_weekly
  by_cases hw : e.has_weekly = true
  · rw [if_pos hw, add_if_due_of_not_due (fun hd => h ⟨hw, hd⟩)]
  · rw [if_neg hw]

theorem step_monthly_of_due {repo now tpls w e acc}
    (hnw : has_assignment_for acc e.bfm_no .WEEKLY = false)
    (hm : e.has_monthly = true)
    (hd : (check_eligibility repo now e .MONTHLY w).status = PMStatus.DUE) :
    step_monthly repo now tpls w e acc =
      acc ++ [mk_assignment e .MONTHLY (check_eligibility repo now e .MONTHLY w)
        (has_custom_template tpls e.bfm_no .MONTHLY)] := by
  unfold step_monthly
  rw [if_pos ⟨hm, hnw⟩, add_if_due_of_due hd]

theorem step_monthly_of_not {repo now tpls w e acc}
    (h : ¬(e.has_monthly = true ∧
      (check_eligibility repo now e .MONTHLY w).status = PMStatus.DUE)) :
    step_monthly repo now tpls w e acc = acc := by
  unfold step_monthly
  by_cases hg : e.has_monthly = true ∧
      has_assignment_for acc e.bfm_no .WEEKLY = false
  · rw [if_pos hg, add_if_due_of_not_due (fun hd => h ⟨hg.1, hd⟩)]
  · rw [if_neg hg]

theorem step_monthly_of_hasW {repo now tpls w e acc}
    (hw : has_assignment_for acc e.bfm_no .WEEKLY = true) :
    step_monthly repo now tpls w e acc = acc := by
  unfold step_monthly
  rw [if_neg]
  intro hg
  rw [hw] at hg
  exact Bool.noConfusion hg.2

theorem step_six_of_due {repo now tpls w e acc}
    (hnw : has_assignment_for acc e.bfm_no .WEEKLY = false)
    (hnm : has_assignment_for acc e.bfm_no .MONTHLY = false)
    (hs : e.has_six_month = true)
    (hd : (check_eligibility repo now e .SIX_MONTH w).status = PMStatus.DUE) :
    step_six_month repo now tpls w e acc =
      acc ++ [mk_assignment e .SIX_MONTH
        (check_eligibility repo now e .SIX_MONTH w)
        (has_custom_template tpls e.bfm_no .SIX_MONTH)] := by
  unfold step_six_month
  rw [if_pos ⟨hs, hnw, hnm⟩, add_if_due_of_due hd]

theorem step_six_of_not {repo now tpls w e acc}
    (h : ¬(e.has_six_month = true ∧
      (check_eligibility repo now e .SIX_MONTH w).status = PMStatus.DUE)) :
    step_six_month repo now tpls w e acc = acc := by
  unfold step_six_month
  by_cases hg : e.has_six_month = true ∧
      has_assignment_for acc e.bfm_no .WEEKLY = false ∧
      has_assignment_for acc e.bfm_no .MONTHLY = false
  · rw [if_pos hg, add_if_due_of_not_due (fun hd => h ⟨hg.1, hd⟩)]
  · rw [if_neg hg]

theorem step_six_of_hasW {repo now tpls w e acc}
    (hw : has_assignment_for acc e.bfm_no .WEEKLY = true) :
    step_six_month repo now tpls w e acc = acc := by
  unfold step_six_month
  rw [if_neg]
  intro hg
  rw [hw] at hg
  exact Bool.noConfusion hg.2.1

theorem step_six_of_hasM {repo now tpls w e acc}
    (hm : has_assignment_for acc e.bfm_no .MONTHLY = true) :
    step_six_month repo now tpls w e acc = acc := by
  unfold step_six_month
  rw [if_neg]
  intro hg
  rw [hm] at hg
  exact Bool.noConfusion hg.2.2

theorem step_annual_of_due {repo now tpls w e acc}
    (hnw : has_assignment_for acc e.bfm_no .WEEKLY = false)
    (hnm : has_assignment_for acc e.bfm_no .MONTHLY = false)
    (hns : has_assignment_for acc e.bfm_no .SIX_MONTH = false)
    (ha : e.has_annual = true)
    (hd : (check_eligibility repo now e .ANNUAL w).status = PMStatus.DUE) :
    step_annual repo now tpls w e acc =
      acc ++ [mk_assignment e .ANNUAL (check_eligibility repo now e .ANNUAL w)
        (has_custom_template tpls e.bfm_no .ANNUAL)] := by
  unfold step_annual
  rw [if_pos ⟨ha, hnw, hnm, hns⟩, add_if_due_of_due hd]

theorem step_annual_of_not {repo now tpls w e acc}
    (h : ¬(e.has_annual = true ∧
      (check_eligibility repo now e .ANNUAL w).status = PMStatus.DUE)) :
    step_annual repo now tpls w e acc = acc := by
  unfold step_annual
  by_cases hg : e.has_annual = true ∧
      has_assignment_for acc e.bfm_no .WEEKLY = false ∧
      has_assignment_for acc e.bfm_no .MONTHLY = false ∧
      has_assignment_for acc e.bfm_no .SIX_MONTH = false
  · rw [if_pos hg, add_if_due_of_not_due (fun hd => h ⟨hg.1, hd⟩)]
  · rw [if_neg hg]

theorem step_annual_of_hasW {repo now tpls w e acc}
    (hw : has_assignment_for acc e.bfm_no .WEEKLY = true) :
    step_annual repo now tpls w e acc = acc := by
  unfold step_annual
  rw [if_neg]
  intro hg
  rw [hw] at hg
  exact Bool.noConfusion hg.2.1

theorem step_annual_of_hasM {repo now tpls w e acc}
    (hm : has_assignment_for acc e.bfm_no .MONTHLY = true) :
    step_annual repo now tpls w e acc = acc := by
  unfold step_annual
  rw [if_neg]
  intro hg
  rw [hm] at hg
  exact Bool.noConfusion hg.2.2.1

theorem step_annual_of_hasS {repo now tpls w e acc}
    (hs : has_assignment_for acc e.bfm_no .SIX_MONTH = true) :
    step_annual repo now tpls w e acc = acc := by
  unfold step_annual
  rw [if_neg]
  intro hg
  rw [hs] at hg
  exact Bool.noConfusion hg.2.2.2

theorem process_equipment_eq {repo now tpls w acc e}
    (hacc : ∀ a ∈ acc, a.bfm_no ≠ e.bfm_no) :
    process_equipment repo now tpls w acc e =
      acc ++ (step_result repo now tpls w e).toList := by
  unfold process_equipment step_result
  by_cases hst : e.status = "Active"
  case neg =>
    rw [if_neg hst, if_neg hst]
    simp
  rw [if_pos hst, if_pos hst]
  have hnoW : has_assignment_for acc e.bfm_no .WEEKLY = false :=
    has_assignment_for_of_ne hacc
  have hnoM : has_assignment_for acc e.bfm_no .MONTHLY = false :=
    has_assignment_for_of_ne hacc
  have hnoS : has_assignment_for acc e.bfm_no .SIX_MONTH = false :=
    has_assignment_for_of_ne hacc
  by_cases hW : e.has_weekly = true ∧
      (check_eligibility repo now e .WEEKLY w).status = PMStatus.DUE
  · rw [step_weekly_of_due hW.1 hW.2]
    have h1 : has_assignment_for
        (acc ++ [mk_assignment e .WEEKLY (check_eligibility repo now e .WEEKLY w)
          (has_custom_template tpls e.bfm_no .WEEKLY)]) e.bfm_no .WEEKLY = true := by
      rw [has_assignment_for_append, hnoW]
      simp [mk_assignment]
    rw [step_monthly_of_hasW h1, step_six_of_hasW h1, step_annual_of_hasW h1,
      if_pos hW]
    rfl
  · rw [step_weekly_of_not hW, if_neg hW]
    by_cases hM : e.has_monthly = true ∧
        (check_eligibility repo now e .MONTHLY w).status = PMStatus.DUE
    · rw [step_monthly_of_due hnoW hM.1 hM.2]
      have h1 : has_assignment_for
          (acc ++ [mk_assignment e .MONTHLY
            (check_eligibility repo now e .MONTHLY w)
            (has_custom_template tpls e.bfm_no .MONTHLY)])
          e.bfm_no .MONTHLY = true := by
        rw [has_assignment_for_append, hnoM]
        simp [mk_assignment]
      rw [step_six_of_hasM h1, step_annual_of_hasM h1, if_pos hM]
      rfl
    · rw [step_monthly_of_not hM, if_neg hM]
      by_cases hS : e.has_six_month = true ∧
          (check_eligibility repo now e .SIX_MONTH w).status = PMStatus.DUE
      · rw [step_six_of_due hnoW hnoM hS.1 hS.2]
        have h1 : has_assignment_for
            (acc ++ [mk_assignment e .SIX_MONTH
              (check_eligibility repo now e .SIX_MONTH w)
              (has_custom_template tpls e.bfm_no .SIX_MONTH)])
            e.bfm_no .SIX_MONTH = true := by
          rw [has_assignment_for_append, hnoS]
          simp [mk_assignment]
        rw [step_annual_of_hasS h1, if_pos hS]
        rfl
      · rw [step_six_of_not hS, if_neg hS]
        by_cases hA : e.has_annual = true ∧
            (check_eligibility repo now e .ANNUAL w).status = PMStatus.DUE
        · rw [step_annual_of_due hnoW hnoM hnoS hA.1 hA.2, if_pos hA]
          rfl
        · rw [step_annual_of_not hA, if_neg hA]
          simp

theorem step_result_bfm {repo now tpls w e a}
    (h : step_result repo now tpls w e = some a) : a.bfm_no = e.bfm_no := by
  unfold step_result at h
  split at h
  · split at h
    · cases h; rfl
    · split at h
      · cases h; rfl
      · split at h
        · cases h; rfl
        · split at h
          · cases h; rfl
          · exact Option.noConfusion h
  · exact Option.noConfusion h

theorem not_due_of_not_flag_due {repo now e w} {p : PMType}
    (hn : ¬(cadence_flag e p = true ∧
      (check_eligibility repo now e p w).status = PMStatus.DUE)) :
    (check_eligibility repo now e p w).status ≠ PMStatus.DUE := by
  intro hd
  by_cases hf : cadence_flag e p = true
  · exact hn ⟨hf, hd⟩
  · have hff : cadence_flag e p = false := by
      revert hf
      cases cadence_flag e p <;> simp
    rw [check_not_due_of_flag_false hff] at hd
    exact PMStatus.noConfusion hd

theorem step_result_higher {repo now tpls w e a}
    (h : step_result repo now tpls w e = some a) :
    ∀ q, pm_rank q < pm_rank a.pm_type →
      (check_eligibility repo now e q w).status ≠ PMStatus.DUE := by
  unfold step_result at h
  split at h
  · split at h
    · cases h
      intro q hq
      cases q <;> simp [mk_assignment, pm_rank] at hq
    · split at h
      · cases h
        rename_i hNW _
        intro q hq
        cases q <;> simp [mk_assignment, pm_rank] at hq
        exact not_due_of_not_flag_due (by simpa [cadence_flag] using hNW)
      · split at h
        · cases h
          rename_i hNW hNM _
          intro q hq
          cases q <;> simp [mk_assignment, pm_rank] at hq
          · exact not_due_of_not_flag_due (by simpa [cadence_flag] using hNW)
          · exact not_due_of_not_flag_due (by simpa [cadence_flag] using hNM)
        · split at h
          · cases h
            rename_i hNW hNM hNS _
            intro q hq
            cases q <;> simp [mk_assignment, pm_rank] at hq
            · exact not_due_of_not_flag_due (by simpa [cadence_flag] using hNW)
            · exact not_due_of_not_flag_due (by simpa [cadence_flag] using hNM)
            · exact not_due_of_not_flag_due (by simpa [cadence_flag] using hNS)
          · exact Option.noConfusion h
  · exact Option.noConfusion h

theorem collect_candidates_aux {repo now tpls w} :
    ∀ (l : List Equipment) (acc : List PMAssignment),
    (∀ a ∈ acc, ∀ e ∈ l, a.bfm_no ≠ e.bfm_no) →
    l.Pairwise (fun e1 e2 => e1.bfm_no ≠ e2.bfm_no) →
    l.foldl (process_equipment repo now tpls w) acc =
      acc ++ l.filterMap (step_result repo now tpls w) := by
  intro l
  induction l with
  | nil =>
    intro acc _ _
    simp
  | cons e rest ih =>
    intro acc hacc hpw
    have hhead := (List.pairwise_cons.mp hpw).1
    have htail := (List.pairwise_cons.mp hpw).2
    rw [List.foldl_cons,
      process_equipment_eq (fun a ha => hacc a ha e (List.mem_cons_self e rest))]
    have hacc' : ∀ a ∈ acc ++ (step_result repo now tpls w e).toList,
        ∀ e' ∈ rest, a.bfm_no ≠ e'.bfm_no := by
      intro a ha e' he'
      rcases List.mem_append.mp ha with hmem | hmem
      · exact hacc a hmem e' (List.mem_cons_of_mem _ he')
      · cases hs : step_result repo now tpls w e with
        | none =>
          rw [hs] at hmem
          simp at hmem
        | some a0 =>
          rw [hs] at hmem
          simp at hmem
          subst hmem
          rw [step_result_bfm hs]
          exact hhead e' he'
    rw [ih _ hacc' htail]
    cases hs : step_result repo now tpls w e <;>
      simp [hs, List.filterMap_cons]

theorem collect_candidates_eq_filterMap {repo now tpls w}
    {l : List Equipment}
    (hl : l.Pairwise (fun e1 e2 => e1.bfm_no ≠ e2.bfm_no)) :
    collect_candidates repo now tpls w l =
      l.filterMap (step_result repo now tpls w) := by
  have h := @collect_candidates_aux repo now tpls w l [] (by simp) hl
  simpa [collect_candidates] using h

theorem pairwise_bfm_unique {l : List Equipment}
    (hl : l.Pairwise (fun e1 e2 => e1.bfm_no ≠ e2.bfm_no)) :
    ∀ e ∈ l, ∀ e' ∈ l, e.bfm_no = e'.bfm_no → e = e' := by
  induction l with
  | nil => simp
  | cons x xs ih =>
    intro e he e' he' heq
    rcases List.mem_cons.mp he with rfl | he2 <;>
      rcases List.mem_cons.mp he' with rfl | he2'
    · rfl
    · exact absurd heq ((List.pairwise_cons.mp hl).1 e' he2')
    · exact absurd heq.symm ((List.pairwise_cons.mp hl).1 e he2)
    · exact ih (List.pairwise_cons.mp hl).2 e he2 e' he2' heq

/-- C1 (amended): for equipment lists with pairwise-distinct ids (as the
roster loader produces), the output of `generate_assignments` contains at
most one assignment per equipment id, and an assignment's cadence is the
highest (weekly > monthly > six-month > annual) whose eligibility is DUE:
every strictly higher cadence of the same equipment is not DUE. -/
theorem c1_one_assignment_per_equipment (repo : RepoCaches) (now : Int)
    (tpls : List (String × String)) (equipment_list : List Equipment)
    (week_start : Int) (max_assignments : Nat)
    (hl : equipment_list.Pairwise (fun e1 e2 => e1.bfm_no ≠ e2.bfm_no)) :
    (generate_assignments repo now tpls equipment_list week_start
        max_assignments).Pairwise (fun a b => a.bfm_no ≠ b.bfm_no) ∧
    ∀ a ∈ generate_assignments repo now tpls equipment_list week_start
        max_assignments,
      ∀ e ∈ equipment_list, e.bfm_no = a.bfm_no →
      ∀ q, pm_rank q < pm_rank a.pm_type →
        (check_eligibility repo now e q week_start).status ≠ PMStatus.DUE := by
  have hcands := @collect_candidates_eq_filterMap repo now tpls week_start
    equipment_list hl
  have hpwf : (equipment_list.filterMap
      (step_result repo now tpls week_start)).Pairwise
      (fun a b => a.bfm_no ≠ b.bfm_no) := by
    rw [List.pairwise_filterMap]
    refine hl.imp ?_
    intro e1 e2 hne b hb b' hb'
    rw [Option.mem_def] at hb hb'
    rw [step_result_bfm hb, step_result_bfm hb']
    exact hne
  have hsorted : (List.insertionSort
      (key_le (equipment_priority_map equipment_list))
      (equipment_list.filterMap (step_result repo now tpls week_start))).Pairwise
      (fun a b => a.bfm_no ≠ b.bfm_no) :=
    ((List.perm_insertionSort _ _).pairwise_iff
      (fun hxy => Ne.symm hxy)).mpr hpwf
  constructor
  · unfold generate_assignments
    rw [hcands]
    exact List.Pairwise.sublist (List.take_sublist _ _) hsorted
  · intro a ha e he heq q hq
    have ha2 : a ∈ equipment_list.filterMap
        (step_result repo now tpls week_start) := by
      unfold generate_assignments at ha
      rw [hcands] at ha
      exact (List.perm_insertionSort _ _).subset
        ((List.take_sublist _ _).subset ha)
    obtain ⟨e0, he0, hs0⟩ := List.mem_filterMap.mp ha2
    have heq0 : e.bfm_no = e0.bfm_no := by
      rw [heq, ← step_result_bfm hs0]
    have hee0 : e = e0 := pairwise_bfm_unique hl e he e0 he0 heq0
    subst hee0
    exact step_result_higher hs0 q hq

/-- C1 counterexample: an equipment list containing the same id twice
yields two Weekly assignments for that id — the one-per-id invariant fails
for lists with duplicate ids. -/
theorem c1_counterexample :
    ¬ (generate_assignments repo_empty now0 [] [eq_weekly, eq_weekly] 0
        10).Pairwise (fun a b => a.bfm_no ≠ b.bfm_no) := by decide

/-- Witness for the amended C1 at a concrete input. -/
theorem c1_witness :
    (generate_assignments repo_empty now0 [] [eq_weekly_annual] 0
        10).Pairwise (fun a b => a.bfm_no ≠ b.bfm_no) ∧
    ∀ a ∈ generate_assignments repo_empty now0 [] [eq_weekly_annual] 0 10,
      ∀ e ∈ [eq_weekly_annual], e.bfm_no = a.bfm_no →
      ∀ q, pm_rank q < pm_rank a.pm_type →
        (check_eligibility repo_empty now0 e q 0).status ≠ PMStatus.DUE :=
  c1_one_assignment_per_equipment repo_empty now0 [] [eq_weekly_annual] 0 10
    (by simp)

end PMSched
